import Mathlib

/-!
Shallow embedding of the mindbank core (src/utils/currency.py and
src/utils/calculations.py) and proofs about it.

Modelling conventions:
* Python numbers are modelled as rationals (`ℚ`); `round(x, n)` is decimal
  round-half-to-even on rationals, mirroring Python 3's `round` on exact
  decimal values.
* Python runtime values that the code inspects dynamically (None, numbers,
  booleans, strings) are modelled by `PyVal`; `bool` counts as numeric
  because in Python `bool` is a subclass of `int`.
* Functions whose Python bodies can raise an uncaught exception return
  `Except Unit _`; `.error ()` is an exception propagating to the caller.
* "Now" is modelled by an explicit `Today` record (`datetime.now().day` and
  `calendar.monthrange(..)[1]`) for the calculations, and by a rational
  timestamp in seconds for the cache-age comparison.
* The cache file together with `json.load`/`datetime.fromisoformat` is
  modelled by `CacheState`: the file may be missing, unreadable/ill-formed
  (any exception while reading, parsing, or looking up the `rate` and
  `timestamp` fields), or a well-formed entry carrying a numeric rate and a
  parsed timestamp.  The network fetch is modelled by an `Option ℚ` input:
  `none` is any failing fetch (connection error, timeout, non-2xx status,
  JSON parse failure, missing or non-numeric `rates.EUR`), `some r` a
  successful fetch whose `rates.EUR` field is the number `r`.
-/

namespace Mindbank

/-- Model of the Python runtime values the core code inspects dynamically. -/
inductive PyVal where
  | vnone : PyVal
  | vnum (q : ℚ) : PyVal
  | vbool (b : Bool) : PyVal
  | vstr (s : String) : PyVal
deriving DecidableEq

/-- Python truthiness: `None` and `0` and `""` and `False` are falsy. -/
def truthy : PyVal → Bool
  | .vnone => false
  | .vnum q => decide (q ≠ 0)
  | .vbool b => b
  | .vstr s => decide (s ≠ "")

/-- `isinstance(v, (int, float))`.  `bool` is a subclass of `int`, so
booleans count as numeric. -/
def isNumeric : PyVal → Bool
  | .vnum _ => true
  | .vbool _ => true
  | _ => false

/-- Numeric value of a numeric `PyVal` (`True == 1`, `False == 0`);
junk value 0 on non-numeric values, which are never consulted. -/
def toQ : PyVal → ℚ
  | .vnum q => q
  | .vbool b => if b then 1 else 0
  | _ => 0

/-- Python `a or b` (with `b` always a defaulting constant here). -/
def pyOr (a b : PyVal) : PyVal := if truthy a then a else b

/-- Python `a <= b`: defined between two numbers (booleans included) and
between two strings; every other combination raises `TypeError`. -/
def pyLE : PyVal → PyVal → Except Unit Bool
  | .vstr a, .vstr b => .ok (decide (a ≤ b))
  | a, b =>
      if isNumeric a && isNumeric b then .ok (decide (toQ a ≤ toQ b))
      else .error ()

/-- Python `a < b`, same domain as `pyLE`. -/
def pyLT : PyVal → PyVal → Except Unit Bool
  | .vstr a, .vstr b => .ok (decide (a < b))
  | a, b =>
      if isNumeric a && isNumeric b then .ok (decide (toQ a < toQ b))
      else .error ()

/-- Using a value as a number in arithmetic: `TypeError` unless numeric. -/
def toNum (v : PyVal) : Except Unit ℚ :=
  if isNumeric v then .ok (toQ v) else .error ()

/-- The two exception kinds `validate_percentage` distinguishes. -/
inductive PyError where
  | typeError : PyError
  | valueError : PyError
deriving DecidableEq

/-- Round a rational to the nearest integer, ties to even — the rounding
Python's builtin `round` implements. -/
def pyRoundInt (x : ℚ) : ℤ :=
  let f := ⌊x⌋
  let r := x - f
  if r < 1/2 then f
  else if 1/2 < r then f + 1
  else if f % 2 = 0 then f else f + 1

/-- Python `round(x, 2)`. -/
def round2 (x : ℚ) : ℚ := pyRoundInt (x * 100) / 100

/-- Python `round(x, 4)`. -/
def round4 (x : ℚ) : ℚ := pyRoundInt (x * 10000) / 10000

/-! ## Exchange-rate provider (src/utils/currency.py) -/

/-- State of the cache file `data/exchange_rates.json` as observed by one
read: missing file, a file whose read/parse/field-lookup raises (truncated
JSON, missing `rate` or `timestamp` key, unparseable timestamp, ...), or a
well-formed entry with numeric `rate` and a timestamp (seconds). -/
inductive CacheState where
  | missing : CacheState
  | corrupt : CacheState
  | entry (rate : ℚ) (timestamp : ℚ) : CacheState
deriving DecidableEq

/-- `CACHE_DURATION_HOURS = 1`, expressed in seconds. -/
def CACHE_DURATION_SECONDS : ℚ := 3600

/-- `FALLBACK_RATE = 0.85`. -/
def FALLBACK_RATE : ℚ := 0.85

/-- `get_cached_rate()`: `None` when the file is missing or anything raises
while reading it (the `except` clause), otherwise the stored rate exactly
when `now - cached_time < timedelta(hours=1)` (strict). -/
def get_cached_rate (cache : CacheState) (now : ℚ) : Option ℚ :=
  match cache with
  | .missing => none
  | .corrupt => none
  | .entry rate timestamp =>
      if now - timestamp < CACHE_DURATION_SECONDS then some rate else none

/-- `fetch_rate_from_api()`: `none` for any failing fetch; on success the
code keeps `rates.EUR` only if it is truthy (`if eur_rate and ...`), and
returns it rounded to 4 decimals. -/
def fetch_rate_from_api (api : Option ℚ) : Option ℚ :=
  match api with
  | some eur_rate => if eur_rate ≠ 0 then some (round4 eur_rate) else none
  | none => none

/-- `get_exchange_rate()`: cache, then network, then the static fallback.
Both hit-tests in the source are Python truthiness tests
(`if cached_rate:` / `if api_rate:`), so a rate equal to 0 falls through.
The best-effort cache write on a successful fetch (`cache_rate`) only
mutates the file and is dropped from this value-level model.  The whole
body is wrapped in `try/except` returning `FALLBACK_RATE`; no sub-call in
the model raises, so the function is total. -/
def get_exchange_rate (cache : CacheState) (now : ℚ) (api : Option ℚ) : ℚ :=
  match get_cached_rate cache now with
  | some cached_rate =>
      if cached_rate ≠ 0 then cached_rate
      else
        match fetch_rate_from_api api with
        | some api_rate => if api_rate ≠ 0 then api_rate else FALLBACK_RATE
        | none => FALLBACK_RATE
  | none =>
      match fetch_rate_from_api api with
      | some api_rate => if api_rate ≠ 0 then api_rate else FALLBACK_RATE
      | none => FALLBACK_RATE

/-! ## Position calculator (src/utils/calculations.py) -/

/-- The time inputs the calculations read: `datetime.now().day` and
`calendar.monthrange(now.year, now.month)[1]`. -/
structure Today where
  day : ℕ
  daysInMonth : ℕ
deriving DecidableEq

/-- The unrounded body of `calculate_realized_monthly_income`:
`(current_day / days_in_month) * monthly_salary * (goal_percentage / 100)`. -/
def realizedMonthlyRaw (t : Today) (s g : ℚ) : ℚ :=
  ((t.day : ℚ) / (t.daysInMonth : ℚ)) * s * (g / 100)

/-- The unrounded value of `calculate_potential_daily_income` past its
guards: 0 if no day remains, otherwise
`remaining_days * (monthly_salary / days_in_month) * (goal_percentage / 100)`. -/
def potentialDailyRaw (t : Today) (s g : ℚ) : ℚ :=
  let remaining : ℤ := (t.daysInMonth : ℤ) - (t.day : ℤ)
  if remaining ≤ 0 then 0
  else (remaining : ℚ) * (s / (t.daysInMonth : ℚ)) * (g / 100)

/-- `calculate_realized_income(monthly_salary)`.  The guard
`if not monthly_salary or monthly_salary <= 0` sits before the `try`
block, so a `TypeError` raised by the comparison propagates (`.error ()`);
inside the `try` everything degrades to 0.  Division by a zero
`days_in_month` gives 0 in ℚ, matching the `except: return 0` branch. -/
def calculate_realized_income (t : Today) (monthly_salary : PyVal) :
    Except Unit ℚ :=
  if truthy monthly_salary = false then .ok 0
  else
    match pyLE monthly_salary (.vnum 0) with
    | .error e => .error e
    | .ok true => .ok 0
    | .ok false =>
        .ok (round2 (((t.day : ℚ) / (t.daysInMonth : ℚ)) * toQ monthly_salary))

/-- `calculate_realized_monthly_income(monthly_salary, goal_percentage)`.
Same guard placement as `calculate_realized_income` (outside the `try`),
with short-circuit evaluation of
`not monthly_salary or monthly_salary <= 0 or goal_percentage < 0`. -/
def calculate_realized_monthly_income (t : Today)
    (monthly_salary goal_percentage : PyVal) : Except Unit ℚ :=
  if truthy monthly_salary = false then .ok 0
  else
    match pyLE monthly_salary (.vnum 0) with
    | .error e => .error e
    | .ok true => .ok 0
    | .ok false =>
        match pyLT goal_percentage (.vnum 0) with
        | .error e => .error e
        | .ok true => .ok 0
        | .ok false =>
            .ok (round2 (realizedMonthlyRaw t (toQ monthly_salary)
              (toQ goal_percentage)))

/-- `calculate_potential_daily_income(monthly_salary, goal_percentage)`:
same guards, then `remaining_days = days_in_month - current_day`, an early
`return 0` when `remaining_days <= 0`, otherwise the rounded product. -/
def calculate_potential_daily_income (t : Today)
    (monthly_salary goal_percentage : PyVal) : Except Unit ℚ :=
  if truthy monthly_salary = false then .ok 0
  else
    match pyLE monthly_salary (.vnum 0) with
    | .error e => .error e
    | .ok true => .ok 0
    | .ok false =>
        match pyLT goal_percentage (.vnum 0) with
        | .error e => .error e
        | .ok true => .ok 0
        | .ok false =>
            if ((t.daysInMonth : ℤ) - (t.day : ℤ)) ≤ 0 then .ok 0
            else
              .ok (round2 ((((t.daysInMonth : ℤ) - (t.day : ℤ) : ℤ) : ℚ) *
                (toQ monthly_salary / (t.daysInMonth : ℚ)) *
                (toQ goal_percentage / 100)))

/-- The assets dict: each field may be absent (`assets.get(key, 0)`). -/
structure AssetSnapshot where
  bank_balance : Option ℚ
  cash_eur : Option ℚ
  cash_usd : Option ℚ
  investments : Option ℚ
deriving DecidableEq

/-- `calculate_total_assets(assets, exchange_rate=None)`: converts the USD
cash with the rate only when one is explicitly provided, sums the four
fields with 0 for missing ones, rounds to 2 decimals.  It takes no rate
provider: when `exchange_rate` is `None` it never fetches one. -/
def calculate_total_assets (assets : AssetSnapshot)
    (exchange_rate : Option ℚ) : ℚ :=
  let cash_usd_in_eur : ℚ :=
    match exchange_rate with
    | some r => assets.cash_usd.getD 0 * r
    | none => assets.cash_usd.getD 0
  round2 (assets.bank_balance.getD 0 + assets.cash_eur.getD 0 +
    cash_usd_in_eur + assets.investments.getD 0)

/-- `calculate_global_position(assets, a, b, exchange_rate=None)`: when
both `a` and `b` are numeric, a value of `b` within `[0, 100]` selects the
raw-inputs form (salary, goal%), any other numeric `b` the pre-computed
form; when either argument is non-numeric the `else` branch recomputes
incomes from `a or 0` and `b or 0`.  The whole body sits in a
`try/except` that turns any raised exception into 0. -/
def calculate_global_position (t : Today) (assets : AssetSnapshot)
    (a b : PyVal) (exchange_rate : Option ℚ) : ℚ :=
  let body : Except Unit ℚ :=
    if isNumeric a && isNumeric b then
      if 0 ≤ toQ b ∧ toQ b ≤ 100 then
        let total_assets := calculate_total_assets assets exchange_rate
        match calculate_realized_monthly_income t a b,
              calculate_potential_daily_income t a b with
        | .ok ri, .ok pot => .ok (round2 (total_assets + ri + pot))
        | .error e, _ => .error e
        | _, .error e => .error e
      else
        .ok (round2 (calculate_total_assets assets exchange_rate +
          toQ a + toQ b))
    else
      let total_assets := calculate_total_assets assets exchange_rate
      match calculate_realized_monthly_income t (pyOr a (.vnum 0))
              (pyOr b (.vnum 0)),
            calculate_potential_daily_income t (pyOr a (.vnum 0))
              (pyOr b (.vnum 0)) with
      | .ok ri, .ok pot => .ok (round2 (total_assets + ri + pot))
      | .error e, _ => .error e
      | _, .error e => .error e
  match body with
  | .ok v => v
  | .error _ => 0

/-- Follows the words of the disambiguation claim about
`calculate_global_position`, not the source: "whenever the third
positional argument is numeric and lies within [0,100], the call is
treated as the raw-inputs form (monthly_salary, goal_percentage) with
realized and potential income computed internally; in every other case
the second and third arguments are used directly as pre-computed realized
and potential income, and the result is
round(total_assets + realized_income + potential_income, 2)" — where
using a non-numeric value directly in the sum raises, which the
function's `try/except` turns into 0. -/
def global_position_per_claim (t : Today) (assets : AssetSnapshot)
    (a b : PyVal) (exchange_rate : Option ℚ) : ℚ :=
  let body : Except Unit ℚ :=
    if isNumeric b && decide (0 ≤ toQ b) && decide (toQ b ≤ 100) then
      let total_assets := calculate_total_assets assets exchange_rate
      match calculate_realized_monthly_income t a b,
            calculate_potential_daily_income t a b with
      | .ok ri, .ok pot => .ok (round2 (total_assets + ri + pot))
      | .error e, _ => .error e
      | _, .error e => .error e
    else
      match toNum a, toNum b with
      | .ok qa, .ok qb =>
          .ok (round2 (calculate_total_assets assets exchange_rate + qa + qb))
      | .error e, _ => .error e
      | _, .error e => .error e
  match body with
  | .ok v => v
  | .error _ => 0

/-- `validate_percentage(value)`: `TypeError` for non-numeric input
(booleans pass, being `int` instances), `ValueError` outside `[0, 100]`,
`True` otherwise. -/
def validate_percentage (v : PyVal) : Except PyError Bool :=
  if isNumeric v = false then .error .typeError
  else if toQ v < 0 ∨ toQ v > 100 then .error .valueError
  else .ok true

/-! ## Evaluation lemmas for the rounding function -/

/-- Evaluate `pyRoundInt` below the midpoint. -/
theorem pyRoundInt_eq_of_lt (x : ℚ) (n : ℤ) (h1 : (n : ℚ) ≤ x)
    (h2 : x - n < 1/2) : pyRoundInt x = n := by
  have hf : ⌊x⌋ = n := Int.floor_eq_iff.mpr ⟨h1, by linarith⟩
  unfold pyRoundInt
  simp only [hf]
  rw [if_pos h2]

/-- Evaluate `pyRoundInt` above the midpoint. -/
theorem pyRoundInt_eq_of_gt (x : ℚ) (n : ℤ) (h1 : 1/2 < x - n)
    (h2 : x < n + 1) : pyRoundInt x = n + 1 := by
  have hn : (n : ℚ) ≤ x := by linarith
  have hf : ⌊x⌋ = n := Int.floor_eq_iff.mpr ⟨hn, by exact_mod_cast h2⟩
  unfold pyRoundInt
  simp only [hf]
  rw [if_neg (by linarith), if_pos h1]

/-- Evaluate `round2` when the scaled value sits below the midpoint. -/
theorem round2_eq_of_lt (x : ℚ) (n : ℤ) (h1 : (n : ℚ) ≤ x * 100)
    (h2 : x * 100 - n < 1/2) : round2 x = n / 100 := by
  unfold round2
  rw [pyRoundInt_eq_of_lt (x * 100) n h1 h2]

/-- Evaluate `round2` when the scaled value sits above the midpoint. -/
theorem round2_eq_of_gt (x : ℚ) (n : ℤ) (h1 : 1/2 < x * 100 - n)
    (h2 : x * 100 < n + 1) : round2 x = (n + 1) / 100 := by
  unfold round2
  rw [pyRoundInt_eq_of_gt (x * 100) n h1 h2]
  push_cast
  ring

/-- Rounding fixes 0. -/
theorem round2_zero : round2 0 = 0 := by
  have h := round2_eq_of_lt 0 0 (by norm_num) (by norm_num)
  simpa using h

/-! ## Claim theorems -/

/-- C1: `get_exchange_rate` never raises; when the network fetch fails
(modelled by `api = none`) and the cache yields no value, it returns
exactly the fallback constant 0.85.  (The model is total by construction:
every error path of the source is a value here.) -/
theorem get_exchange_rate_fallback_on_total_failure (cache : CacheState)
    (now : ℚ) (h : get_cached_rate cache now = none) :
    get_exchange_rate cache now none = FALLBACK_RATE ∧
    FALLBACK_RATE = 0.85 :=
  ⟨by simp [get_exchange_rate, h, fetch_rate_from_api], rfl⟩

/-- Witness for C1: the concrete missing-cache, failed-fetch state. -/
theorem get_exchange_rate_fallback_on_total_failure_witness :
    get_exchange_rate .missing 0 none = FALLBACK_RATE ∧
    FALLBACK_RATE = 0.85 :=
  get_exchange_rate_fallback_on_total_failure .missing 0 rfl

/-- C2: `get_cached_rate` hits iff the cache is a well-formed entry (file
exists, deserializes with both fields, timestamp parses) whose age
satisfies `now - timestamp < 1 hour` strictly; an entry aged exactly one
hour misses, and a future-dated entry (negative age) hits. -/
theorem get_cached_rate_validity_window :
    (∀ (cache : CacheState) (now r : ℚ),
        get_cached_rate cache now = some r ↔
          ∃ t, cache = .entry r t ∧ now - t < CACHE_DURATION_SECONDS) ∧
    (∀ r t : ℚ, get_cached_rate (.entry r t) (t + 3600) = none) ∧
    (∀ r t now : ℚ, now < t → get_cached_rate (.entry r t) now = some r) := by
  refine ⟨?_, ?_, ?_⟩
  · intro cache now r
    cases cache with
    | missing => simp [get_cached_rate]
    | corrupt => simp [get_cached_rate]
    | entry r0 t0 =>
        constructor
        · intro h
          simp only [get_cached_rate] at h
          split at h
          · exact ⟨t0, by simp_all⟩
          · exact absurd h (by simp)
        · rintro ⟨t, ht, hlt⟩
          rw [CacheState.entry.injEq] at ht
          obtain ⟨hr, htt⟩ := ht
          subst hr
          subst htt
          simp [get_cached_rate, hlt]
  · intro r t
    simp [get_cached_rate, CACHE_DURATION_SECONDS]
  · intro r t now hlt
    have hage : now - t < CACHE_DURATION_SECONDS := by
      unfold CACHE_DURATION_SECONDS
      linarith
    simp [get_cached_rate, hage]

/-- Witness for C2: a rate stamped now misses exactly one hour later, and
a future-dated stamp hits. -/
theorem get_cached_rate_validity_window_witness :
    get_cached_rate (.entry 0.9 0) 3600 = none ∧
    get_cached_rate (.entry 0.9 100) 0 = some 0.9 :=
  ⟨by simpa using get_cached_rate_validity_window.2.1 0.9 0,
   get_cached_rate_validity_window.2.2 0.9 100 0 (by norm_num)⟩

/-- C5: with an explicit rate `calculate_total_assets` scales only the USD
component: `round2 (bank + eur + usd * r + inv)`; with no rate, USD is
added 1:1 (and the function consults no rate source — it has none). -/
theorem calculate_total_assets_rate_modes :
    ∀ (b e u i : Option ℚ) (r : ℚ),
      calculate_total_assets ⟨b, e, u, i⟩ (some r) =
        round2 (b.getD 0 + e.getD 0 + u.getD 0 * r + i.getD 0) ∧
      calculate_total_assets ⟨b, e, u, i⟩ none =
        round2 (b.getD 0 + e.getD 0 + u.getD 0 + i.getD 0) :=
  fun _ _ _ _ _ => ⟨rfl, rfl⟩

/-- C8: a fresh cache entry whose rate is 0 is returned by
`get_cached_rate`, but `get_exchange_rate` (whose hit test is Python
truthiness) behaves exactly as if there were no cache at all, so it never
serves a cached rate of exactly 0. -/
theorem get_exchange_rate_skips_cached_zero (t now : ℚ)
    (h : now - t < CACHE_DURATION_SECONDS) :
    get_cached_rate (.entry 0 t) now = some 0 ∧
    ∀ api : Option ℚ,
      get_exchange_rate (.entry 0 t) now api =
        get_exchange_rate .missing now api := by
  have hc : get_cached_rate (.entry 0 t) now = some 0 := by
    simp [get_cached_rate, h]
  exact ⟨hc, fun api => by simp [get_exchange_rate, get_cached_rate, h]⟩

/-- Witness for C8: a zero rate cached at the very instant of the lookup. -/
theorem get_exchange_rate_skips_cached_zero_witness :
    get_cached_rate (.entry 0 0) 0 = some 0 ∧
    get_exchange_rate (.entry 0 0) 0 none =
      get_exchange_rate .missing 0 none :=
  ⟨(get_exchange_rate_skips_cached_zero 0 0
      (by norm_num [CACHE_DURATION_SECONDS])).1,
   (get_exchange_rate_skips_cached_zero 0 0
      (by norm_num [CACHE_DURATION_SECONDS])).2 none⟩

/-- C9: fields missing from the assets mapping are read as 0
(`assets.get(key, 0)`): a partial snapshot totals like the same snapshot
with explicit zeros, and the empty snapshot totals 0. -/
theorem calculate_total_assets_defaults_missing_to_zero :
    ∀ (b e u i : Option ℚ) (rate : Option ℚ),
      calculate_total_assets ⟨b, e, u, i⟩ rate =
        calculate_total_assets
          ⟨some (b.getD 0), some (e.getD 0), some (u.getD 0),
            some (i.getD 0)⟩ rate ∧
      calculate_total_assets ⟨none, none, none, none⟩ rate = 0 := by
  intro b e u i rate
  constructor
  · cases rate <;> rfl
  · cases rate <;> simp [calculate_total_assets, round2_zero]

/-- C10: `validate_percentage` accepts `True` and `False` (booleans are
`int` instances, so the non-numeric `TypeError` branch does not fire, and
both values lie in `[0, 100]`), returning `True` for both. -/
theorem validate_percentage_accepts_booleans :
    validate_percentage (.vbool true) = .ok true ∧
    validate_percentage (.vbool false) = .ok true := by
  constructor <;> norm_num [validate_percentage, isNumeric, toQ]

/-! ## Shared evaluation lemmas for the income calculations -/

/-- With a positive numeric salary and a nonnegative numeric goal, the
guards of `calculate_realized_monthly_income` pass and the function
returns its rounded formula value. -/
theorem calculate_realized_monthly_income_num (t : Today) (s g : ℚ)
    (hs : 0 < s) (hg : 0 ≤ g) :
    calculate_realized_monthly_income t (.vnum s) (.vnum g) =
      .ok (round2 (realizedMonthlyRaw t s g)) := by
  simp [calculate_realized_monthly_income, truthy, pyLE, pyLT, isNumeric,
    toQ, hs.ne', hs.not_le, hg.not_lt]

/-- Same for `calculate_potential_daily_income`, whose early
`remaining_days <= 0` exit coincides with `potentialDailyRaw` being 0. -/
theorem calculate_potential_daily_income_num (t : Today) (s g : ℚ)
    (hs : 0 < s) (hg : 0 ≤ g) :
    calculate_potential_daily_income t (.vnum s) (.vnum g) =
      .ok (round2 (potentialDailyRaw t s g)) := by
  by_cases hrem : ((t.daysInMonth : ℤ) - (t.day : ℤ)) ≤ 0
  · simp [calculate_potential_daily_income, truthy, pyLE, pyLT, isNumeric,
      toQ, hs.ne', hs.not_le, hg.not_lt, potentialDailyRaw, hrem, round2_zero]
  · simp [calculate_potential_daily_income, truthy, pyLE, pyLT, isNumeric,
      toQ, hs.ne', hs.not_le, hg.not_lt, potentialDailyRaw, hrem]

/-- C3 counterexample: at the last day of a 31-day month with salary 1 and
goal 0.1%, both addends round to 0 while the claimed total is 0.001, so
the partition law fails for the rounded values the functions return. -/
theorem proration_partition_cex :
    calculate_realized_monthly_income ⟨31, 31⟩ (.vnum 1) (.vnum (1/10)) =
      .ok 0 ∧
    calculate_potential_daily_income ⟨31, 31⟩ (.vnum 1) (.vnum (1/10)) =
      .ok 0 ∧
    (0 : ℚ) + 0 ≠ 1 * ((1/10) / 100) := by
  refine ⟨?_, ?_, by norm_num⟩
  · rw [calculate_realized_monthly_income_num ⟨31, 31⟩ 1 (1/10) (by norm_num)
      (by norm_num)]
    have h1 : realizedMonthlyRaw ⟨31, 31⟩ 1 (1/10) = 1/1000 := by
      norm_num [realizedMonthlyRaw]
    rw [h1, round2_eq_of_lt (1/1000) 0 (by norm_num) (by norm_num)]
    norm_num
  · rw [calculate_potential_daily_income_num ⟨31, 31⟩ 1 (1/10) (by norm_num)
      (by norm_num)]
    have h2 : potentialDailyRaw ⟨31, 31⟩ 1 (1/10) = 0 := by
      norm_num [potentialDailyRaw]
    rw [h2, round2_zero]

/-- C3 (amended): the proration partition law holds exactly for the
unrounded addends — for every day in `[1, days_in_month]`, positive
salary and goal in `[0, 100]`, the raw realized and potential values sum
to `monthly_salary * (goal_percentage / 100)` — and the two functions
return exactly the 2-decimal roundings of those addends (so their sum can
differ from the product only by the rounding). -/
theorem proration_partition_unrounded (t : Today) (s g : ℚ) (hs : 0 < s)
    (hg0 : 0 ≤ g) (_hg1 : g ≤ 100) (hd1 : 1 ≤ t.day)
    (hd2 : t.day ≤ t.daysInMonth) :
    realizedMonthlyRaw t s g + potentialDailyRaw t s g = s * (g / 100) ∧
    calculate_realized_monthly_income t (.vnum s) (.vnum g) =
      .ok (round2 (realizedMonthlyRaw t s g)) ∧
    calculate_potential_daily_income t (.vnum s) (.vnum g) =
      .ok (round2 (potentialDailyRaw t s g)) := by
  refine ⟨?_, calculate_realized_monthly_income_num t s g hs hg0,
    calculate_potential_daily_income_num t s g hs hg0⟩
  have hD : 1 ≤ t.daysInMonth := le_trans hd1 hd2
  have hDq : ((t.daysInMonth : ℚ)) ≠ 0 := by
    have : 0 < t.daysInMonth := lt_of_lt_of_le Nat.zero_lt_one hD
    positivity
  unfold realizedMonthlyRaw potentialDailyRaw
  by_cases hrem : ((t.daysInMonth : ℤ) - (t.day : ℤ)) ≤ 0
  · have hdd : t.day = t.daysInMonth := by
      have h1 : (t.day : ℤ) ≤ (t.daysInMonth : ℤ) := by exact_mod_cast hd2
      have h2 : (t.daysInMonth : ℤ) ≤ (t.day : ℤ) := by linarith [sub_nonpos.mp hrem]
      exact_mod_cast le_antisymm h1 h2
    rw [if_pos hrem, hdd, div_self hDq]
    ring
  · rw [if_neg hrem]
    push_cast
    field_simp
    ring

/-- Witness for C3 (amended): day 15 of a 31-day month, salary 3000,
goal 75. -/
theorem proration_partition_unrounded_witness :
    realizedMonthlyRaw ⟨15, 31⟩ 3000 75 + potentialDailyRaw ⟨15, 31⟩ 3000 75 =
      3000 * (75 / 100) ∧
    calculate_realized_monthly_income ⟨15, 31⟩ (.vnum 3000) (.vnum 75) =
      .ok (round2 (realizedMonthlyRaw ⟨15, 31⟩ 3000 75)) ∧
    calculate_potential_daily_income ⟨15, 31⟩ (.vnum 3000) (.vnum 75) =
      .ok (round2 (potentialDailyRaw ⟨15, 31⟩ 3000 75)) :=
  proration_partition_unrounded ⟨15, 31⟩ 3000 75 (by norm_num) (by norm_num)
    (by norm_num) (by decide) (by decide)

/-- C4: for positive salary and nonnegative goal,
`calculate_potential_daily_income` returns
`remaining_days * (monthly_salary / days_in_month) * (goal_percentage / 100)`
rounded to 2 decimals, with `remaining_days = days_in_month - current_day`,
and returns 0 when `remaining_days <= 0`. -/
theorem calculate_potential_daily_income_formula (t : Today) (s g : ℚ)
    (hs : 0 < s) (hg : 0 ≤ g) :
    calculate_potential_daily_income t (.vnum s) (.vnum g) =
      .ok (if ((t.daysInMonth : ℤ) - (t.day : ℤ)) ≤ 0 then 0
        else round2 ((((t.daysInMonth : ℤ) - (t.day : ℤ) : ℤ) : ℚ) *
          (s / (t.daysInMonth : ℚ)) * (g / 100))) := by
  rw [calculate_potential_daily_income_num t s g hs hg]
  unfold potentialDailyRaw
  by_cases hrem : ((t.daysInMonth : ℤ) - (t.day : ℤ)) ≤ 0
  · rw [if_pos hrem, if_pos hrem, round2_zero]
  · rw [if_neg hrem, if_neg hrem]

/-- Witness for C4: day 15 of a 31-day month, salary 3000, goal 75 gives
16 * (3000/31) * 0.75 rounded, i.e. 1161.29. -/
theorem calculate_potential_daily_income_formula_witness :
    (0 : ℚ) < 3000 ∧
    calculate_potential_daily_income ⟨15, 31⟩ (.vnum 3000) (.vnum 75) =
      .ok (116129 / 100) := by
  refine ⟨by norm_num, ?_⟩
  rw [calculate_potential_daily_income_formula ⟨15, 31⟩ 3000 75 (by norm_num)
    (by norm_num)]
  rw [if_neg (by norm_num)]
  have hx : ((((31 : ℕ) : ℤ) - ((15 : ℕ) : ℤ) : ℤ) : ℚ) *
      ((3000 : ℚ) / ((31 : ℕ) : ℚ)) * ((75 : ℚ) / 100) = 36000 / 31 := by
    push_cast
    norm_num
  rw [hx, round2_eq_of_lt (36000 / 31) 116129 (by norm_num) (by norm_num)]
  norm_num

/-- C6 counterexample: with assets `{bank_balance: 100}`, second argument
3000 and third argument `None` (non-numeric, so by the claim the
"pre-computed incomes" reading should apply), the source instead
recomputes incomes from `3000 or 0` and `None or 0`, returning 100, while
the claim's reading yields 0 (the direct use of `None` as an income
raises, and the `except` returns 0). -/
theorem global_position_disambiguation_cex :
    calculate_global_position ⟨15, 31⟩ ⟨some 100, none, none, none⟩
      (.vnum 3000) .vnone none = 100 ∧
    global_position_per_claim ⟨15, 31⟩ ⟨some 100, none, none, none⟩
      (.vnum 3000) .vnone none = 0 := by
  constructor
  · have hraw1 : realizedMonthlyRaw ⟨15, 31⟩ 3000 0 = 0 := by
      norm_num [realizedMonthlyRaw]
    have hraw2 : potentialDailyRaw ⟨15, 31⟩ 3000 0 = 0 := by
      norm_num [potentialDailyRaw]
    have hri : calculate_realized_monthly_income ⟨15, 31⟩ (.vnum 3000)
        (.vnum 0) = .ok 0 := by
      rw [calculate_realized_monthly_income_num ⟨15, 31⟩ 3000 0 (by norm_num)
        le_rfl, hraw1, round2_zero]
    have hpi : calculate_potential_daily_income ⟨15, 31⟩ (.vnum 3000)
        (.vnum 0) = .ok 0 := by
      rw [calculate_potential_daily_income_num ⟨15, 31⟩ 3000 0 (by norm_num)
        le_rfl, hraw2, round2_zero]
    have h100 : round2 (100 : ℚ) = 100 := by
      rw [round2_eq_of_lt (100 : ℚ) 10000 (by norm_num) (by norm_num)]
      norm_num
    have hOr1 : pyOr (.vnum 3000) (.vnum 0) = .vnum 3000 := by
      norm_num [pyOr, truthy]
    have hOr2 : pyOr .vnone (.vnum 0) = .vnum 0 := rfl
    have hTA : calculate_total_assets ⟨some 100, none, none, none⟩ none =
        100 := by
      show round2 ((100 : ℚ) + 0 + 0 + 0) = 100
      rw [show (100 : ℚ) + 0 + 0 + 0 = 100 by norm_num, h100]
    simp only [calculate_global_position, isNumeric, Bool.and_false,
      Bool.false_and, if_false, hOr1, hOr2, hri, hpi, hTA,
      show (100 : ℚ) + 0 + 0 = 100 by norm_num, h100]
    simp
  · rfl

/-- C6 (amended): restricted to calls where both the second and third
arguments are numeric — the only situation the source's value-inspection
reaches — the claimed disambiguation is exact: a third argument within
`[0, 100]` selects the raw-inputs form, any other numeric third argument
the pre-computed form, with result
`round2 (total_assets + realized_income + potential_income)`.  (When
either argument is non-numeric, the source instead recomputes incomes
from the arguments with falsy values replaced by 0.) -/
theorem global_position_disambiguation_numeric (t : Today)
    (assets : AssetSnapshot) (a b : PyVal) (rate : Option ℚ)
    (ha : isNumeric a = true) (hb : isNumeric b = true) :
    calculate_global_position t assets a b rate =
      global_position_per_claim t assets a b rate := by
  unfold calculate_global_position global_position_per_claim
  rw [ha, hb]
  by_cases hrange : 0 ≤ toQ b ∧ toQ b ≤ 100
  · simp only [Bool.true_and, Bool.and_self, if_true, if_pos hrange,
      decide_eq_true hrange.1, decide_eq_true hrange.2]
  · have hfalse : (decide (0 ≤ toQ b) && decide (toQ b ≤ 100)) = false := by
      rw [← Bool.decide_and]
      exact decide_eq_false hrange
    simp only [Bool.true_and, Bool.and_self, if_true, if_neg hrange, hfalse,
      Bool.false_eq_true, if_false, toNum, ha, hb, if_true]

/-- Witness for C6 (amended): a concrete all-numeric call. -/
theorem global_position_disambiguation_numeric_witness :
    calculate_global_position ⟨15, 31⟩ ⟨some 100, none, none, none⟩
      (.vnum 3000) (.vnum 75) none =
      global_position_per_claim ⟨15, 31⟩ ⟨some 100, none, none, none⟩
        (.vnum 3000) (.vnum 75) none :=
  global_position_disambiguation_numeric ⟨15, 31⟩ ⟨some 100, none, none, none⟩
    (.vnum 3000) (.vnum 75) none rfl rfl

/-- C7 counterexample: a non-empty string salary does not yield 0 — the
guard comparison `monthly_salary <= 0` sits before the `try` block and
raises `TypeError`, which propagates to the caller. -/
theorem realized_income_nonnumeric_cex :
    calculate_realized_monthly_income ⟨15, 31⟩ (.vstr "abc") (.vnum 50) =
      .error () ∧
    calculate_realized_income ⟨15, 31⟩ (.vstr "abc") = .error () := by
  constructor
  · simp [calculate_realized_monthly_income, truthy, pyLE, isNumeric]
  · simp [calculate_realized_income, truthy, pyLE, isNumeric]

/-- C7 (amended): the realized-income calculations return 0 without
raising when the salary is falsy (`None`, 0, `False`, the empty string),
when it is a number `<= 0`, or when a numeric goal percentage is
negative; but a truthy non-numeric salary (a non-empty string) makes the
guard comparison raise `TypeError`, which propagates because the guard
runs before the `try` block. -/
theorem realized_income_guard_behaviour (t : Today) (s g : PyVal) :
    (truthy s = false →
      calculate_realized_monthly_income t s g = .ok 0 ∧
      calculate_realized_income t s = .ok 0) ∧
    (∀ q : ℚ, q ≤ 0 →
      calculate_realized_monthly_income t (.vnum q) g = .ok 0 ∧
      calculate_realized_income t (.vnum q) = .ok 0) ∧
    (∀ qs qg : ℚ, qg < 0 →
      calculate_realized_monthly_income t (.vnum qs) (.vnum qg) = .ok 0) ∧
    (truthy s = true → isNumeric s = false →
      calculate_realized_monthly_income t s g = .error () ∧
      calculate_realized_income t s = .error ()) := by
  refine ⟨?_, ?_, ?_, ?_⟩
  · intro hf
    constructor
    · simp [calculate_realized_monthly_income, hf]
    · simp [calculate_realized_income, hf]
  · intro q hq
    by_cases h0 : q = 0
    · subst h0
      constructor
      · simp [calculate_realized_monthly_income, truthy]
      · simp [calculate_realized_income, truthy]
    · constructor
      · simp [calculate_realized_monthly_income, truthy, pyLE, isNumeric,
          toQ, h0, hq]
      · simp [calculate_realized_income, truthy, pyLE, isNumeric, toQ, h0, hq]
  · intro qs qg hg
    by_cases h0 : qs = 0
    · subst h0
      simp [calculate_realized_monthly_income, truthy]
    · by_cases hle : qs ≤ 0
      · simp [calculate_realized_monthly_income, truthy, pyLE, isNumeric,
          toQ, h0, hle]
      · simp [calculate_realized_monthly_income, truthy, pyLE, pyLT,
          isNumeric, toQ, h0, hle, hg]
  · intro ht hn
    cases s with
    | vnone => simp [truthy] at ht
    | vnum q => simp [isNumeric] at hn
    | vbool b => simp [isNumeric] at hn
    | vstr str =>
        have hne : str ≠ "" := by simpa [truthy] using ht
        constructor
        · simp [calculate_realized_monthly_income, truthy, pyLE, isNumeric,
            hne]
        · simp [calculate_realized_income, truthy, pyLE, isNumeric, hne]

/-- Witness for C7 (amended): `None` salary, negative salary, negative
goal all give 0; a non-empty string salary raises. -/
theorem realized_income_guard_behaviour_witness :
    calculate_realized_monthly_income ⟨10, 30⟩ .vnone (.vnum 50) = .ok 0 ∧
    calculate_realized_monthly_income ⟨10, 30⟩ (.vnum (-5)) (.vnum 50) =
      .ok 0 ∧
    calculate_realized_monthly_income ⟨10, 30⟩ (.vnum 3000) (.vnum (-1)) =
      .ok 0 ∧
    calculate_realized_monthly_income ⟨10, 30⟩ (.vstr "xyz") (.vnum 50) =
      .error () :=
  ⟨((realized_income_guard_behaviour ⟨10, 30⟩ .vnone (.vnum 50)).1 rfl).1,
   ((realized_income_guard_behaviour ⟨10, 30⟩ (.vnum (-5)) (.vnum 50)).2.1
      (-5) (by norm_num)).1,
   (realized_income_guard_behaviour ⟨10, 30⟩ (.vnum 3000) (.vnum (-1))).2.2.1
      3000 (-1) (by norm_num),
   ((realized_income_guard_behaviour ⟨10, 30⟩ (.vstr "xyz") (.vnum 50)).2.2.2
      (by simp [truthy]) rfl).1⟩
